import Mathlib

/-!
Verification of the camera/visibility/eclipse core of the Pioneer space
simulation renderer (src/Camera.cpp), as a shallow embedding over the reals.

Floating-point doubles and floats of the source are modelled as real numbers;
the numeric claims under scrutiny concern the clamping and epsilon-guard
structure of the code, which the real-number model captures faithfully.
External collaborators (the frame/scene-graph system, the frustum test, the
renderer) are modelled as data carried by the scene: each body carries its
camera-space position and the scene carries the frustum predicate.
-/

noncomputable section

open Classical

namespace Pioneer

/-- Clamp from the support library (utils.h, not under src/).
Modelled from the spec: values are clamped into a closed interval; returns
hi when x exceeds hi, lo when x is under lo, and x otherwise. -/
def Clamp (x lo hi : ℝ) : ℝ :=
  if x > hi then hi else if x < lo then lo else x

/-- Intermediate xl of discCovered: the horizontal coordinate of the
circle-circle intersection along the centre-to-centre line, with the divisor
floored at 0.001 and the result clamped into the closed interval from -1 to 1.
From src/Camera.cpp line 373. -/
def dcXl (dist rad : ℝ) : ℝ :=
  Clamp ((dist * dist + 1 - rad * rad) / (2 * max 0.001 dist)) (-1) 1

/-- Intermediate xs of discCovered: normalised leftwards distance from the
centre of the second disc to the intersection. From src/Camera.cpp line 374. -/
def dcXs (dist rad : ℝ) : ℝ :=
  Clamp ((dist - dcXl dist rad) / max 0.001 rad) (-1) 1

/-- Intermediate d of discCovered: vertical distance to an intersection point,
with the square-root argument floored at 0. From src/Camera.cpp line 375. -/
def dcD (dist rad : ℝ) : ℝ :=
  Real.sqrt (max 0 (1 - dcXl dist rad * dcXl dist rad))

/-- Intermediate th of discCovered: half-angle subtended, clamped into the
closed interval from 0 to pi. From src/Camera.cpp line 377. -/
def dcTh (dist rad : ℝ) : ℝ :=
  Clamp (Real.arccos (dcXl dist rad)) 0 Real.pi

/-- Intermediate th2 of discCovered. From src/Camera.cpp line 378. -/
def dcTh2 (dist rad : ℝ) : ℝ :=
  Clamp (Real.arccos (dcXs dist rad)) 0 Real.pi

/-- Proportion of the unit disc covered by a second disc of radius rad placed
dist from the centre of the first disc. From src/Camera.cpp lines 362-385. -/
def discCovered (dist rad : ℝ) : ℝ :=
  Clamp ((dcTh dist rad + rad * rad * dcTh2 dist rad - dist * dcD dist rad)
    / Real.pi) 0 1

/-- Three-component real vector, modelling vector3d of the source. -/
structure V3 where
  x : ℝ
  y : ℝ
  z : ℝ

def V3.sub (a b : V3) : V3 :=
  ⟨a.x - b.x, a.y - b.y, a.z - b.z⟩

def V3.dot (a b : V3) : ℝ :=
  a.x * b.x + a.y * b.y + a.z * b.z

def V3.smul (s : ℝ) (v : V3) : V3 :=
  ⟨s * v.x, s * v.y, s * v.z⟩

def V3.sdiv (v : V3) (s : ℝ) : V3 :=
  ⟨v.x / s, v.y / s, v.z / s⟩

def V3.length (v : V3) : ℝ :=
  Real.sqrt (v.x * v.x + v.y * v.y + v.z * v.z)

def V3.normalized (v : V3) : V3 :=
  v.sdiv v.length

/-- Colour with byte channels, modelling Color4ub of the support library
(Color.h, not under src/). -/
structure Color where
  r : ℕ
  g : ℕ
  b : ℕ
  a : ℕ
deriving DecidableEq

def Color.white : Color := ⟨255, 255, 255, 255⟩

/-- Modelled from the spec: the billboard tint is multiplied by the diffuse
colour of the primary light; Color.h (not under src/) supplies the
componentwise byte multiplication. -/
def colorMul (c d : Color) : Color :=
  ⟨c.r * d.r / 255, c.g * d.g / 255, c.b * d.b / 255, c.a * d.a / 255⟩

/-- Static catalog data of a body: GetSystemBody() of the source. starColor is
the entry of the star colour table keyed by the type of this system body. -/
structure SystemBody where
  radius : ℝ
  albedo : Color
  starColor : Color
  superTypeStar : Bool

/-- The body flags read by this core. The numeric bitmask lives in Body.h
(not under src/); only these two bits are consulted here. -/
structure Flags where
  drawExclude : Bool
  drawLast : Bool

/-- A scene body as read by the camera core. The id field models the object
address: the pointer comparisons of the source are id comparisons here. pos is
the world position and viewCoords the interpolated camera-space position, both
supplied by the external frame system. -/
structure Body where
  id : ℕ
  flags : Flags
  isTerrain : Bool
  isStar : Bool
  isPlanet : Bool
  pos : V3
  viewCoords : V3
  clipRadius : ℝ
  physRadius : ℝ
  sysBody : SystemBody

/-- Directional light descriptor, modelling Graphics::Light. -/
structure Light where
  position : V3
  diffuse : Color
  specular : Color

/-- Camera::LightSource: an optional owning body plus a light. -/
structure LightSource where
  body : Option Body
  light : Light

/-- Camera::Shadow: normalised projected centre with the occluder and light
disc radii, all in units of the occluded body radius. -/
structure Shadow where
  centre : V3
  srad : ℝ
  lrad : ℝ

/-- The body loop of Camera::CalcShadows, src/Camera.cpp lines 326-359. The
skip conditions are carried over verbatim as the negated if-chains of the
source. -/
def shadowLoop (b lightBody : Body) (lightRadius : ℝ) (bLightPos lightDir : V3)
    (bRadius : ℝ) : List Body → List Shadow
  | [] => []
  | b2 :: rest =>
    let tail := shadowLoop b lightBody lightRadius bLightPos lightDir bRadius rest
    if b2.id = b.id ∨ b2.id = lightBody.id ∨
        ¬(b2.isPlanet = true ∨ b2.isStar = true) then tail
    else
      let b2pos := b2.pos.sub b.pos
      let perpDist := lightDir.dot b2pos
      if perpDist ≤ 0 ∨ perpDist > bLightPos.length then tail
      else
        let srad := b2.sysBody.radius / bRadius
        let lrad := lightRadius / bLightPos.length * perpDist / bRadius
        if srad / lrad < 0.01 then tail
        else
          let projectedCentre := (b2pos.sub (V3.smul perpDist lightDir)).sdiv bRadius
          if projectedCentre.length < 1 + srad + lrad then
            ⟨projectedCentre, srad, lrad⟩ :: tail
          else tail

/-- Camera::CalcShadows, src/Camera.cpp lines 308-360. The light is fetched
from the light list; a light with no owning body produces no shadows. The
occlusion radius of the target is the catalog radius for terrain bodies and
the physical radius otherwise. -/
def CalcShadows (bodies : List Body) (lights : List LightSource)
    (lightNum : ℕ) (b : Body) : List Shadow :=
  match lights[lightNum]? with
  | none => []
  | some ls =>
    match ls.body with
    | none => []
    | some lightBody =>
      shadowLoop b lightBody lightBody.physRadius (lightBody.pos.sub b.pos)
        (lightBody.pos.sub b.pos).normalized
        (if b.isTerrain then b.sysBody.radius else b.physRadius) bodies

/-- Camera::ShadowedIntensity, src/Camera.cpp lines 389-398: fold the shadow
list of one light into a product of factors 1 - discCovered. -/
def ShadowedIntensity (bodies : List Body) (lights : List LightSource)
    (lightNum : ℕ) (b : Body) : ℝ :=
  (CalcShadows bodies lights lightNum b).foldl
    (fun product sh =>
      product * (1 - discCovered (sh.centre.length / sh.lrad) (sh.srad / sh.lrad)))
    1

/-- Per-body per-frame draw attributes, modelling Camera::BodyAttrs. The
camera-space transform matrix is owned by the external frame system and not
consulted by any claim, so it is omitted here. -/
structure BodyAttrs where
  body : Body
  viewCoords : V3
  camDist : ℝ
  bodyFlags : Flags
  billboard : Bool
  billboardPos : V3
  billboardSize : ℝ
  billboardColor : Color

/-- Camera::BodyAttrs::sort_BodyAttrs, src/Camera.cpp lines 81-97: the
comparator of the draw list. -/
def sort_BodyAttrs (a b : BodyAttrs) : Prop :=
  if a.bodyFlags.drawLast && b.bodyFlags.drawLast then a.camDist > b.camDist
  else if a.bodyFlags.drawLast then False
  else if b.bodyFlags.drawLast then True
  else a.camDist > b.camDist

/-- The shadow-gathering loop of Camera::PrincipalShadows, src/Camera.cpp
lines 405-407: CalcShadows is appended for each light index under both the
fixed cap 4 and the light-list size. -/
def gatherShadows (bodies : List Body) (lights : List LightSource)
    (b : Body) : List Shadow :=
  (List.range (min 4 lights.length)).foldl
    (fun acc i => acc ++ CalcShadows bodies lights i b) []

/-- Camera::PrincipalShadows, src/Camera.cpp lines 400-415. Modelled from the
spec: the severity order on shadow descriptors is the natural order of the
descriptor (operator< of Camera::Shadow lives in Camera.h, which is not under
src/), so it is taken here as an arbitrary relation parameter; std::sort is
modelled by insertion sort, one sorted permutation, and the copy from the
reverse iterator of up to n entries is reverse followed by take. -/
def PrincipalShadows (le : Shadow → Shadow → Prop) (bodies : List Body)
    (lights : List LightSource) (b : Body) (n : ℕ) : List Shadow :=
  (((gatherShadows bodies lights b).insertionSort le).reverse).take n

/-- Astronomical unit of the support library (not under src/). Modelled from
the spec: light positions are scaled to astronomical units; the claims do not
depend on the value. -/
def AU : ℝ := 149598000000

/-- A reference frame as read by the light walk: its system body, its body,
whether it is the rotating frame, its position relative to the camera frame
(supplied by the external frame system), and its children. -/
inductive Frame where
  | mk : Option SystemBody → Option Body → Bool → V3 → List Frame → Frame

/-- The light built for a star frame, src/Camera.cpp lines 124-133: position
scaled by the AU-normalised distance, star colour with alpha 0 for both
diffuse and specular, owner taken from GetBody() of the frame. -/
def frameLight (fbody : Option Body) (fpos : V3) (sb : SystemBody) : LightSource :=
  let dist := fpos.length / AU
  let lpos := V3.smul (1 / dist) fpos
  let lightCol : Color := ⟨sb.starColor.r, sb.starColor.g, sb.starColor.b, 0⟩
  ⟨fbody, ⟨lpos, lightCol, lightCol⟩⟩

/-- The entry emission step of position_system_lights, src/Camera.cpp lines
121-134: a light is appended exactly when the frame has a system body of star
supertype and is not the rotating frame. -/
def lightsAtFrame : Option SystemBody → Option Body → Bool → V3 →
    List LightSource → List LightSource
  | some s, fbody, rot, fpos, lights =>
    if s.superTypeStar && !rot then lights ++ [frameLight fbody fpos s]
    else lights
  | none, _, _, _, lights => lights

mutual

/-- position_system_lights, src/Camera.cpp lines 116-140: return at entry once
more than 3 lights are held, otherwise emit for this frame and recurse into
every child. -/
def position_system_lights : Frame → List LightSource → List LightSource
  | Frame.mk sb fbody rot fpos kids, lights =>
    if lights.length > 3 then lights
    else position_system_lights_list kids (lightsAtFrame sb fbody rot fpos lights)

/-- The child loop of position_system_lights, src/Camera.cpp lines 136-139. -/
def position_system_lights_list : List Frame → List LightSource → List LightSource
  | [], lights => lights
  | k :: ks, lights => position_system_lights_list ks (position_system_lights k lights)

end

/-- Contribution of one frame head to the star-frame count for the body with
id beta: 1 exactly when this frame would emit a light owned by that body. -/
def starFrameHit (beta : ℕ) : Option SystemBody → Option Body → Bool → ℕ
  | some s, some bb, rot =>
    if s.superTypeStar && !rot && (bb.id == beta) then 1 else 0
  | some _, none, _ => 0
  | none, _, _ => 0

mutual

/-- Number of non-rotating star frames in the tree whose body has id beta. -/
def starFramesFor (beta : ℕ) : Frame → ℕ
  | Frame.mk sb fbody rot _ kids =>
    starFrameHit beta sb fbody rot + starFramesForList beta kids

def starFramesForList (beta : ℕ) : List Frame → ℕ
  | [] => 0
  | k :: ks => starFramesFor beta k + starFramesForList beta ks

end


/-- Number of lights in the list owned by the body with id beta. -/
def ownerCount (beta : ℕ) (ls : List LightSource) : ℕ :=
  ls.countP (fun l => match l.body with | some bb => bb.id == beta | none => false)

/-- The synthetic fallback light of Camera::Draw, src/Camera.cpp line 239:
white directional light at the origin. -/
def whiteLight : Light := ⟨⟨0, 0, 0⟩, Color.white, Color.white⟩

/-- The light population step of Camera::Draw, src/Camera.cpp lines 232-241:
walk from the root frame; when no light was found, substitute exactly one
synthetic white light with no owning body. -/
def drawLights (root : Frame) : List LightSource :=
  let ls := position_system_lights root []
  if ls.isEmpty then [⟨none, whiteLight⟩] else ls

/-- Scene data consumed by Camera::Update and Camera::Draw: the bodies of the
space, the root frame, and the external rendering collaborators (frustum test,
screen projection, screen height, field-of-view factor). -/
structure Space where
  bodies : List Body
  rootFrame : Frame
  frustumTest : V3 → ℝ → Bool
  translatePoint : V3 → V3
  screenHeight : ℝ
  fovFactor : ℝ

/-- Per-frame camera state: the active light list and the sorted draw list. -/
structure Camera where
  lightSources : List LightSource
  sortedBodies : List BodyAttrs

/-- The billboard base colour, src/Camera.cpp lines 187-195: star colour for
stars, albedo for planets, white otherwise. -/
def baseBillboardColor (b : Body) : Color :=
  if b.isStar then b.sysBody.starColor
  else if b.isPlanet then b.sysBody.albedo
  else Color.white

/-- The billboard colour after the light multiply, src/Camera.cpp lines
197-201: when the light list is non-empty and the body is not a star, the
base colour is multiplied by the diffuse colour of the first light. -/
def litBillboardColor (lights : List LightSource) (b : Body) : Color :=
  match lights with
  | [] => baseBillboardColor b
  | l0 :: _ =>
    if b.isStar then baseBillboardColor b
    else colorMul (baseBillboardColor b) l0.light.diffuse

/-- The final billboard colour, src/Camera.cpp line 203: alpha forced to full
opacity after the multiply. -/
def billboardColorOf (lights : List LightSource) (b : Body) : Color :=
  { litBillboardColor lights b with a := 255 }

/-- The per-body classification of Camera::Update, src/Camera.cpp lines
148-210: exclude-flag rejection, frustum cull on the clip radius, pixel size
computed from the clip radius, billboard classification for terrain bodies
under 8 pixels, hidden-object rejection for other bodies under 2 pixels. The
billboard fields of a non-billboard entry are left uninitialised by the
source and carry fixed defaults here; no claim reads them. -/
def evalBody (space : Space) (lights : List LightSource) (b : Body) :
    Option BodyAttrs :=
  if b.flags.drawExclude then none
  else
    let viewCoords := b.viewCoords
    let rad := b.clipRadius
    if !space.frustumTest viewCoords rad then none
    else
      let camDist := viewCoords.length
      let pixSize := space.screenHeight * 2 * rad / (camDist * space.fovFactor)
      if b.isTerrain then
        if pixSize < 8 then
          some ⟨b, viewCoords, camDist, b.flags, true,
            space.translatePoint viewCoords, max 1 pixSize,
            billboardColorOf lights b⟩
        else
          some ⟨b, viewCoords, camDist, b.flags, false, ⟨0, 0, 0⟩, 0, Color.white⟩
      else if pixSize < 2 then none
      else some ⟨b, viewCoords, camDist, b.flags, false, ⟨0, 0, 0⟩, 0, Color.white⟩

/-- Camera::Update, src/Camera.cpp lines 142-214: rebuild the draw list from
the body set using the light list currently held by the camera, then sort it
with the BodyAttrs comparator (std::list sort modelled as insertion sort, one
stable sorted permutation). -/
def update (space : Space) (cam : Camera) : Camera :=
  ⟨cam.lightSources,
   (space.bodies.filterMap (evalBody space cam.lightSources)).insertionSort
     sort_BodyAttrs⟩

/-- The state change of Camera::Draw, src/Camera.cpp lines 232-241: the light
list is cleared and repopulated from the frame tree with the synthetic
fallback; the draw list is only consumed, not changed. -/
def draw (space : Space) (cam : Camera) : Camera :=
  ⟨drawLights space.rootFrame, cam.sortedBodies⟩

/-- One rendered frame. Modelled from the spec: section 4.4 fixes the
per-frame sequence as Update rebuilding the draw list and Draw consuming it;
the caller that issues the two calls lives outside src/. -/
def frameStep (space : Space) (cam : Camera) : Camera :=
  draw space (update space cam)

/-- Test fixture: a system body with no star supertype. -/
def sys0 : SystemBody := ⟨1, Color.white, Color.white, false⟩

/-- Test fixture: an empty root frame. -/
def rootF0 : Frame := Frame.mk none none false ⟨0, 0, 0⟩ []

/-- Test fixture: a non-terrain body whose clip radius 0.1 is much smaller
than its physical radius 1000, placed at camera distance 4. -/
def b9 : Body :=
  ⟨0, ⟨false, false⟩, false, false, false, ⟨0, 0, 0⟩, ⟨0, 0, 4⟩, 0.1, 1000, sys0⟩

/-- Test fixture: a scene with trivial external collaborators. -/
def space9 : Space := ⟨[b9], rootF0, fun _ _ => true, fun v => v, 1, 1⟩

/-- Test fixture: a star system body whose star colour is black, so the
emitted light has black diffuse. -/
def starSys8 : SystemBody := ⟨1, Color.white, ⟨0, 0, 0, 255⟩, true⟩

/-- Test fixture: a root frame holding one non-rotating star frame. -/
def starFrame8 : Frame := Frame.mk (some starSys8) none false ⟨1, 0, 0⟩ []

/-- Test fixture: a terrain planet with white albedo at camera distance 4,
billboard sized. -/
def planet8 : Body :=
  ⟨0, ⟨false, false⟩, true, false, true, ⟨0, 0, 0⟩, ⟨0, 0, 4⟩, 1, 1, sys0⟩

/-- Test fixture: the scene for the tint staleness counterexample. -/
def space8 : Space := ⟨[planet8], starFrame8, fun _ _ => true, fun v => v, 1, 1⟩

theorem Clamp_le {lo hi : ℝ} (x : ℝ) (h : lo ≤ hi) : Clamp x lo hi ≤ hi := by
  unfold Clamp; split_ifs <;> linarith

theorem le_Clamp {lo hi : ℝ} (x : ℝ) (h : lo ≤ hi) : lo ≤ Clamp x lo hi := by
  unfold Clamp; split_ifs <;> linarith

theorem Clamp_eq_of_le {x lo hi : ℝ} (h1 : lo ≤ x) (h2 : x ≤ hi) :
    Clamp x lo hi = x := by
  unfold Clamp; split_ifs <;> linarith

theorem Clamp_eq_hi {x lo hi : ℝ} (h : hi ≤ x) (hlh : lo ≤ hi) :
    Clamp x lo hi = hi := by
  unfold Clamp; split_ifs <;> linarith

theorem Clamp_eq_lo {x lo hi : ℝ} (h : x ≤ lo) (hlh : lo ≤ hi) :
    Clamp x lo hi = lo := by
  unfold Clamp; split_ifs <;> linarith

theorem discCovered_nonneg (dist rad : ℝ) : 0 ≤ discCovered dist rad :=
  le_Clamp _ (by norm_num)

theorem discCovered_le_one (dist rad : ℝ) : discCovered dist rad ≤ 1 :=
  Clamp_le _ (by norm_num)

theorem dcTh_eq (dist rad : ℝ) : dcTh dist rad = Real.arccos (dcXl dist rad) :=
  Clamp_eq_of_le (Real.arccos_nonneg _) (Real.arccos_le_pi _)

theorem dcTh2_eq (dist rad : ℝ) : dcTh2 dist rad = Real.arccos (dcXs dist rad) :=
  Clamp_eq_of_le (Real.arccos_nonneg _) (Real.arccos_le_pi _)

theorem arccos_antitone {x y : ℝ} (h : x ≤ y) :
    Real.arccos y ≤ Real.arccos x := by
  rw [Real.arccos_eq_pi_div_two_sub_arcsin, Real.arccos_eq_pi_div_two_sub_arcsin]
  have := Real.monotone_arcsin h
  linarith

/-- C1: for every dist and rad at least 0 (including both equal to 0),
discCovered is a well-defined real in the closed interval from 0 to 1.
Never-NaN is expressed by the guards: both division denominators are strictly
positive, the arguments fed to arccos lie in the closed interval from -1 to 1,
the square-root argument is at least 0, and the intermediate quantities d, th
and th2 are genuine reals with th and th2 in the closed interval from 0 to pi. -/
theorem discCovered_safe (dist rad : ℝ) (hdist : 0 ≤ dist) (hrad : 0 ≤ rad) :
    0 < 2 * max 0.001 dist ∧
    0 < max 0.001 rad ∧
    (-1 ≤ dcXl dist rad ∧ dcXl dist rad ≤ 1) ∧
    (-1 ≤ dcXs dist rad ∧ dcXs dist rad ≤ 1) ∧
    0 ≤ 1 - dcXl dist rad * dcXl dist rad ∧
    dcD dist rad = Real.sqrt (1 - dcXl dist rad * dcXl dist rad) ∧
    (0 ≤ dcTh dist rad ∧ dcTh dist rad ≤ Real.pi) ∧
    (0 ≤ dcTh2 dist rad ∧ dcTh2 dist rad ≤ Real.pi) ∧
    0 ≤ discCovered dist rad ∧ discCovered dist rad ≤ 1 := by
  have hxl1 : -1 ≤ dcXl dist rad := le_Clamp _ (by norm_num)
  have hxl2 : dcXl dist rad ≤ 1 := Clamp_le _ (by norm_num)
  have hsq : 0 ≤ 1 - dcXl dist rad * dcXl dist rad := by
    have h2 : dcXl dist rad * dcXl dist rad ≤ 1 :=
      abs_le_one_iff_mul_self_le_one.mp (abs_le.mpr ⟨hxl1, hxl2⟩)
    linarith
  refine ⟨?_, ?_, ⟨hxl1, hxl2⟩, ⟨le_Clamp _ (by norm_num), Clamp_le _ (by norm_num)⟩,
    hsq, ?_, ⟨le_Clamp _ Real.pi_pos.le, Clamp_le _ Real.pi_pos.le⟩,
    ⟨le_Clamp _ Real.pi_pos.le, Clamp_le _ Real.pi_pos.le⟩,
    discCovered_nonneg dist rad, discCovered_le_one dist rad⟩
  · have : (0.001 : ℝ) ≤ max 0.001 dist := le_max_left _ _
    linarith
  · have : (0.001 : ℝ) ≤ max 0.001 rad := le_max_left _ _
    linarith
  · unfold dcD
    rw [max_eq_right hsq]

/-- Witness for discCovered_safe at dist = 0, rad = 0. -/
theorem discCovered_safe_witness :
    (0 : ℝ) ≤ 0 ∧
    (0 < 2 * max (0.001 : ℝ) 0 ∧
     0 < max (0.001 : ℝ) (0 : ℝ) ∧
     (-1 ≤ dcXl 0 0 ∧ dcXl 0 0 ≤ 1) ∧
     (-1 ≤ dcXs 0 0 ∧ dcXs 0 0 ≤ 1) ∧
     0 ≤ 1 - dcXl 0 0 * dcXl 0 0 ∧
     dcD 0 0 = Real.sqrt (1 - dcXl 0 0 * dcXl 0 0) ∧
     (0 ≤ dcTh 0 0 ∧ dcTh 0 0 ≤ Real.pi) ∧
     (0 ≤ dcTh2 0 0 ∧ dcTh2 0 0 ≤ Real.pi) ∧
     0 ≤ discCovered 0 0 ∧ discCovered 0 0 ≤ 1) :=
  ⟨le_refl 0, discCovered_safe 0 0 le_rfl le_rfl⟩

theorem dc_deg_concentric_full {r : ℝ} (hr : 1 ≤ r) : discCovered 0 r = 1 := by
  have h0 : max (0.001 : ℝ) 0 = 0.001 := max_eq_left (by norm_num)
  have hr0 : (0.001 : ℝ) ≤ r := by linarith
  have hmr : max (0.001 : ℝ) r = r := max_eq_right hr0
  have hxl : dcXl 0 r = Clamp ((1 - r * r) / 0.002) (-1) 1 := by
    unfold dcXl
    rw [h0]
    norm_num
  rcases le_or_lt 1.002 (r * r) with hA | hB
  · -- the entry value of xl is at most -1; xl clamps to -1 and th is pi
    have hxlv : dcXl 0 r = -1 := by
      rw [hxl]
      exact Clamp_eq_lo (by rw [div_le_iff (by norm_num : (0:ℝ) < 0.002)]; linarith)
        (by norm_num)
    have hth : dcTh 0 r = Real.pi := by
      rw [dcTh_eq, hxlv, Real.arccos_neg_one]
    have hxsv : dcXs 0 r = 1 / r := by
      unfold dcXs
      rw [hxlv, hmr]
      have hrpos : (0 : ℝ) < r := by linarith
      have heq : ((0 : ℝ) - -1) / r = 1 / r := by ring
      rw [heq]
      refine Clamp_eq_of_le ?_ ?_
      · have : (0 : ℝ) ≤ 1 / r := by positivity
        linarith
      · rw [div_le_one hrpos]
        linarith
    have hth2 : dcTh2 0 r = Real.arccos (1 / r) := by rw [dcTh2_eq, hxsv]
    unfold discCovered
    rw [hth, hth2]
    refine Clamp_eq_hi ?_ (by norm_num)
    rw [le_div_iff Real.pi_pos, one_mul]
    have h1 : 0 ≤ r * r * Real.arccos (1 / r) := by
      have := Real.arccos_nonneg (1 / r)
      nlinarith
    have h2 : (0 : ℝ) * dcD 0 r = 0 := by ring
    nlinarith [Real.arccos_nonneg (1 / r)]
  · -- r * r lies in the band from 1 to 1.002: xl is the raw negative value
    set a : ℝ := (r * r - 1) / 0.002 with ha
    have ha0 : 0 ≤ a := by
      rw [ha]
      have : (0 : ℝ) ≤ r * r - 1 := by nlinarith
      positivity
    have ha1 : a < 1 := by
      rw [ha, div_lt_one (by norm_num : (0:ℝ) < 0.002)]
      linarith
    have hxlv : dcXl 0 r = -a := by
      rw [hxl]
      have : (1 - r * r) / 0.002 = -a := by rw [ha]; ring
      rw [this]
      exact Clamp_eq_of_le (by linarith) (by linarith)
    have hth : dcTh 0 r = Real.pi - Real.arccos a := by
      rw [dcTh_eq, hxlv, Real.arccos_neg]
    have hrpos : (0 : ℝ) < r := by linarith
    have hxsv : dcXs 0 r = a / r := by
      unfold dcXs
      rw [hxlv, hmr]
      have heq : (0 - -a) / r = a / r := by ring
      rw [heq]
      refine Clamp_eq_of_le ?_ ?_
      · have : (0 : ℝ) ≤ a / r := by positivity
        linarith
      · rw [div_le_one hrpos]
        linarith
    have hth2 : dcTh2 0 r = Real.arccos (a / r) := by rw [dcTh2_eq, hxsv]
    unfold discCovered
    rw [hth, hth2]
    refine Clamp_eq_hi ?_ (by norm_num)
    rw [le_div_iff Real.pi_pos, one_mul]
    have hmono : Real.arccos a ≤ Real.arccos (a / r) :=
      arccos_antitone (div_le_self ha0 hr)
    have hnn : 0 ≤ Real.arccos (a / r) := Real.arccos_nonneg _
    have hrr : (0 : ℝ) ≤ r * r - 1 := by nlinarith
    nlinarith [mul_nonneg hrr hnn]

theorem dc_deg_concentric_small {r : ℝ} (hr : 0 < r) (hr2 : r * r ≤ 0.998) :
    discCovered 0 r = r * r := by
  have h0 : max (0.001 : ℝ) 0 = 0.001 := max_eq_left (by norm_num)
  have hr1 : r ≤ 1 := by nlinarith
  have hxl : dcXl 0 r = 1 := by
    unfold dcXl
    rw [h0]
    refine Clamp_eq_hi ?_ (by norm_num)
    rw [le_div_iff (by norm_num : (0:ℝ) < 2 * 0.001)]
    nlinarith
  have hm : (0 : ℝ) < max 0.001 r := lt_max_of_lt_left (by norm_num)
  have hm1 : max (0.001 : ℝ) r ≤ 1 := max_le (by norm_num) hr1
  have hxs : dcXs 0 r = -1 := by
    unfold dcXs
    rw [hxl]
    refine Clamp_eq_lo ?_ (by norm_num)
    rw [div_le_iff hm]
    linarith
  have hth : dcTh 0 r = 0 := by rw [dcTh_eq, hxl, Real.arccos_one]
  have hth2 : dcTh2 0 r = Real.pi := by rw [dcTh2_eq, hxs, Real.arccos_neg_one]
  unfold discCovered
  rw [hth, hth2]
  have hval : (0 + r * r * Real.pi - 0 * dcD 0 r) / Real.pi = r * r := by
    field_simp
  rw [hval]
  exact Clamp_eq_of_le (by positivity) (by nlinarith)

theorem dc_deg_disjoint {dist rad : ℝ} (hrad : 0 ≤ rad)
    (hd : 1 + max rad 0.001 ≤ dist) : discCovered dist rad = 0 := by
  have hd1 : (1.001 : ℝ) ≤ dist := by
    have : (0.001 : ℝ) ≤ max rad 0.001 := le_max_right _ _
    linarith
  have hmd : max (0.001 : ℝ) dist = dist := max_eq_right (by linarith)
  have hdr : rad ≤ dist - 1 := by
    have : rad ≤ max rad 0.001 := le_max_left _ _
    linarith
  have hxl : dcXl dist rad = 1 := by
    unfold dcXl
    rw [hmd]
    refine Clamp_eq_hi ?_ (by norm_num)
    rw [le_div_iff (by linarith : (0:ℝ) < 2 * dist)]
    nlinarith
  have hmr : (0 : ℝ) < max 0.001 rad := lt_max_of_lt_left (by norm_num)
  have hxs : dcXs dist rad = 1 := by
    unfold dcXs
    rw [hxl]
    refine Clamp_eq_hi ?_ (by norm_num)
    rw [le_div_iff hmr, one_mul, max_comm]
    linarith
  have hth : dcTh dist rad = 0 := by rw [dcTh_eq, hxl, Real.arccos_one]
  have hth2 : dcTh2 dist rad = 0 := by rw [dcTh2_eq, hxs, Real.arccos_one]
  have hdd : dcD dist rad = 0 := by
    unfold dcD
    rw [hxl]
    norm_num
  unfold discCovered
  rw [hth, hth2, hdd]
  have hval : ((0 : ℝ) + rad * rad * 0 - dist * 0) / Real.pi = 0 := by
    field_simp
  rw [hval]
  exact Clamp_eq_of_le le_rfl (by norm_num)

/-- C2 counterexample: the claim asserts discCovered(dist, rad) = 0 whenever
dist is at least 1 + rad, but at dist = 1.0005 and rad = 0.0004 (which satisfy
dist at least 1 + rad with rad at least 0) the epsilon floor on the xs divisor
leaves a strictly positive covered fraction, so the claim as stated is false. -/
theorem discCovered_degenerate_cex :
    (0 : ℝ) ≤ 0.0004 ∧ 1 + (0.0004 : ℝ) ≤ 1.0005 ∧
    discCovered 1.0005 0.0004 ≠ 0 := by
  refine ⟨by norm_num, by norm_num, ?_⟩
  have hmd : max (0.001 : ℝ) 1.0005 = 1.0005 := max_eq_right (by norm_num)
  have hmr : max (0.001 : ℝ) 0.0004 = 0.001 := max_eq_left (by norm_num)
  have hxl : dcXl 1.0005 0.0004 = 1 := by
    unfold dcXl
    rw [hmd]
    refine Clamp_eq_hi ?_ (by norm_num)
    rw [le_div_iff (by norm_num : (0:ℝ) < 2 * 1.0005)]
    norm_num
  have hxs : dcXs 1.0005 0.0004 = 0.5 := by
    unfold dcXs
    rw [hxl, hmr]
    have : ((1.0005 : ℝ) - 1) / 0.001 = 0.5 := by norm_num
    rw [this]
    exact Clamp_eq_of_le (by norm_num) (by norm_num)
  have hth : dcTh 1.0005 0.0004 = 0 := by rw [dcTh_eq, hxl, Real.arccos_one]
  have hth2 : dcTh2 1.0005 0.0004 = Real.arccos 0.5 := by rw [dcTh2_eq, hxs]
  have hdd : dcD 1.0005 0.0004 = 0 := by
    unfold dcD
    rw [hxl]
    norm_num
  have hpos : 0 < Real.arccos 0.5 := Real.arccos_pos.mpr (by norm_num)
  have hle : Real.arccos 0.5 ≤ Real.pi := Real.arccos_le_pi _
  unfold discCovered
  rw [hth, hth2, hdd]
  have hv0 : (0 : ℝ) <
      (0 + 0.0004 * 0.0004 * Real.arccos 0.5 - 1.0005 * 0) / Real.pi := by
    have : (0 : ℝ) < 0.0004 * 0.0004 * Real.arccos 0.5 := by positivity
    have hπ : (0 : ℝ) < Real.pi := Real.pi_pos
    rw [lt_div_iff hπ]
    nlinarith
  have hv1 : (0 + 0.0004 * 0.0004 * Real.arccos 0.5 - 1.0005 * 0) / Real.pi
      ≤ 1 := by
    rw [div_le_one Real.pi_pos]
    nlinarith
  rw [Clamp_eq_of_le hv0.le hv1]
  exact ne_of_gt hv0

/-- C2 amended: the degenerate disc configurations fall out of the clamped
formula as the claim states only away from the epsilon floors. Precisely:
a concentric occluder of radius at least 1 fully covers (value 1); a
concentric occluder with r * r at most 0.998 (so that the xl divisor guard is
inactive) covers exactly r * r; and separated discs give 0 once dist is at
least 1 + max rad 0.001 (the claimed bound 1 + rad fails inside the width
0.001 guard band, as the counterexample shows). -/
theorem discCovered_degenerate (r dist rad : ℝ) :
    (1 ≤ r → discCovered 0 r = 1) ∧
    (0 < r → r * r ≤ 0.998 → discCovered 0 r = r * r) ∧
    (0 ≤ rad → 1 + max rad 0.001 ≤ dist → discCovered dist rad = 0) :=
  ⟨fun h => dc_deg_concentric_full h,
   fun h1 h2 => dc_deg_concentric_small h1 h2,
   fun h1 h2 => dc_deg_disjoint h1 h2⟩

/-- Witness for discCovered_degenerate: each part applied at a concrete
input with its hypotheses discharged. -/
theorem discCovered_degenerate_witness :
    ((1 : ℝ) ≤ 2 ∧ discCovered 0 2 = 1) ∧
    ((0 : ℝ) < 0.5 ∧ (0.5 : ℝ) * 0.5 ≤ 0.998 ∧
      discCovered 0 0.5 = 0.5 * 0.5) ∧
    ((0 : ℝ) ≤ 1 ∧ 1 + max (1 : ℝ) 0.001 ≤ 3 ∧ discCovered 3 1 = 0) :=
  ⟨⟨by norm_num, (discCovered_degenerate 2 0 0).1 (by norm_num)⟩,
   ⟨by norm_num, by norm_num,
     (discCovered_degenerate 0.5 0 0).2.1 (by norm_num) (by norm_num)⟩,
   ⟨by norm_num, by rw [max_eq_left (by norm_num : (0.001:ℝ) ≤ 1)]; norm_num,
     (discCovered_degenerate 0 3 1).2.2 (by norm_num)
       (by rw [max_eq_left (by norm_num : (0.001:ℝ) ≤ 1)]; norm_num)⟩⟩

theorem shadowLoop_eq_filterMap (b lightBody : Body) (lightRadius : ℝ)
    (bLightPos lightDir : V3) (bRadius : ℝ) (bodies : List Body) :
    shadowLoop b lightBody lightRadius bLightPos lightDir bRadius bodies =
      bodies.filterMap (fun b2 =>
        if b2.id ≠ b.id ∧ b2.id ≠ lightBody.id ∧
            (b2.isPlanet = true ∨ b2.isStar = true) ∧
            0 < lightDir.dot (b2.pos.sub b.pos) ∧
            lightDir.dot (b2.pos.sub b.pos) ≤ bLightPos.length ∧
            0.01 ≤ (b2.sysBody.radius / bRadius) /
              (lightRadius / bLightPos.length * lightDir.dot (b2.pos.sub b.pos)
                / bRadius) ∧
            (((b2.pos.sub b.pos).sub
                (V3.smul (lightDir.dot (b2.pos.sub b.pos)) lightDir)).sdiv
                bRadius).length
              < 1 + b2.sysBody.radius / bRadius +
                lightRadius / bLightPos.length * lightDir.dot (b2.pos.sub b.pos)
                  / bRadius
        then some ⟨((b2.pos.sub b.pos).sub
              (V3.smul (lightDir.dot (b2.pos.sub b.pos)) lightDir)).sdiv bRadius,
            b2.sysBody.radius / bRadius,
            lightRadius / bLightPos.length * lightDir.dot (b2.pos.sub b.pos)
              / bRadius⟩
        else none) := by
  induction bodies with
  | nil => simp [shadowLoop]
  | cons b2 rest ih =>
    simp only [shadowLoop, List.filterMap_cons]
    by_cases h1 : b2.id = b.id ∨ b2.id = lightBody.id ∨
        ¬(b2.isPlanet = true ∨ b2.isStar = true)
    · rw [if_pos h1, if_neg (by tauto)]
      exact ih
    · rw [if_neg h1]
      push_neg at h1
      by_cases h2 : lightDir.dot (b2.pos.sub b.pos) ≤ 0 ∨
          lightDir.dot (b2.pos.sub b.pos) > bLightPos.length
      · rw [if_pos h2, if_neg (by
          intro hc
          rcases h2 with h2 | h2
          · linarith [hc.2.2.2.1]
          · linarith [hc.2.2.2.2.1])]
        exact ih
      · rw [if_neg h2]
        push_neg at h2
        by_cases h3 : b2.sysBody.radius / bRadius /
            (lightRadius / bLightPos.length * lightDir.dot (b2.pos.sub b.pos)
              / bRadius) < 0.01
        · rw [if_pos h3, if_neg (by intro hc; linarith [hc.2.2.2.2.2.1])]
          exact ih
        · rw [if_neg h3]
          push_neg at h3
          by_cases h4 : (((b2.pos.sub b.pos).sub
              (V3.smul (lightDir.dot (b2.pos.sub b.pos)) lightDir)).sdiv
              bRadius).length
              < 1 + b2.sysBody.radius / bRadius +
                lightRadius / bLightPos.length * lightDir.dot (b2.pos.sub b.pos)
                  / bRadius
          · rw [if_pos h4, if_pos ⟨h1.1, h1.2.1, h1.2.2, h2.1, h2.2, h3, h4⟩]
            rw [ih]
          · rw [if_neg h4, if_neg (by intro hc; exact h4 hc.2.2.2.2.2.2)]
            exact ih

/-- C4: CalcShadows yields the empty list when the owning body of the light is
absent; otherwise it emits exactly one descriptor per scene body meeting all
the acceptance conditions of the claim: planet or star class, distinct from
both the target and the light body, perpendicular distance along the light
direction strictly positive and at most the distance to the light, radius
ratio srad over lrad at least 0.01, and normalised projected centre length
under 1 + srad + lrad; all lengths are divided by the occlusion radius of the
target (catalog radius for terrain bodies, physical radius otherwise). -/
theorem CalcShadows_spec (bodies : List Body) (lights : List LightSource)
    (lightNum : ℕ) (b : Body) :
    (∀ ls, lights[lightNum]? = some ls → ls.body = none →
      CalcShadows bodies lights lightNum b = []) ∧
    (∀ ls lightBody, lights[lightNum]? = some ls → ls.body = some lightBody →
      CalcShadows bodies lights lightNum b =
        bodies.filterMap (fun b2 =>
          let bRadius := if b.isTerrain then b.sysBody.radius else b.physRadius
          let bLightPos := lightBody.pos.sub b.pos
          let lightDir := bLightPos.normalized
          let perpDist := lightDir.dot (b2.pos.sub b.pos)
          let srad := b2.sysBody.radius / bRadius
          let lrad := lightBody.physRadius / bLightPos.length * perpDist / bRadius
          let projectedCentre :=
            ((b2.pos.sub b.pos).sub (V3.smul perpDist lightDir)).sdiv bRadius
          if b2.id ≠ b.id ∧ b2.id ≠ lightBody.id ∧
              (b2.isPlanet = true ∨ b2.isStar = true) ∧
              0 < perpDist ∧ perpDist ≤ bLightPos.length ∧
              0.01 ≤ srad / lrad ∧
              projectedCentre.length < 1 + srad + lrad
          then some ⟨projectedCentre, srad, lrad⟩
          else none)) := by
  constructor
  · intro ls hget hbody
    simp [CalcShadows, hget, hbody]
  · intro ls lightBody hget hbody
    simp only [CalcShadows, hget, hbody]
    exact shadowLoop_eq_filterMap b lightBody lightBody.physRadius
      (lightBody.pos.sub b.pos) (lightBody.pos.sub b.pos).normalized
      (if b.isTerrain then b.sysBody.radius else b.physRadius) bodies

/-- Witness for CalcShadows_spec: a light with no owning body gives no
shadows, and a light with an owning body gives the filtered list (here empty
since the scene has no third body). -/
theorem CalcShadows_spec_witness :
    (([⟨none, ⟨⟨0, 0, 0⟩, Color.white, Color.white⟩⟩] :
        List LightSource)[0]? = some ⟨none, ⟨⟨0, 0, 0⟩, Color.white, Color.white⟩⟩) ∧
    (LightSource.body ⟨none, ⟨⟨0, 0, 0⟩, Color.white, Color.white⟩⟩ = none) ∧
    CalcShadows []
      [⟨none, ⟨⟨0, 0, 0⟩, Color.white, Color.white⟩⟩] 0
      ⟨0, ⟨false, false⟩, false, false, false, ⟨0, 0, 0⟩, ⟨0, 0, 0⟩, 1, 1,
        ⟨1, Color.white, Color.white, false⟩⟩ = [] := by
  refine ⟨rfl, rfl, ?_⟩
  exact (CalcShadows_spec [] [⟨none, ⟨⟨0, 0, 0⟩, Color.white, Color.white⟩⟩] 0
    ⟨0, ⟨false, false⟩, false, false, false, ⟨0, 0, 0⟩, ⟨0, 0, 0⟩, 1, 1,
      ⟨1, Color.white, Color.white, false⟩⟩).1 _ rfl rfl

theorem list_prod_mem_unit (l : List ℝ) (h : ∀ x ∈ l, 0 ≤ x ∧ x ≤ 1) :
    0 ≤ l.prod ∧ l.prod ≤ 1 := by
  induction l with
  | nil => simp
  | cons a t ih =>
    obtain ⟨ha0, ha1⟩ := h a (List.mem_cons_self a t)
    obtain ⟨ht0, ht1⟩ := ih fun x hx => h x (List.mem_cons_of_mem _ hx)
    rw [List.prod_cons]
    exact ⟨mul_nonneg ha0 ht0, mul_le_one₀ ha1 ht0 ht1⟩

theorem foldl_mul_eq_prod (f : Shadow → ℝ) (l : List Shadow) :
    l.foldl (fun product sh => product * f sh) 1 = (l.map f).prod := by
  rw [List.prod_eq_foldl, List.foldl_map]

/-- C3: ShadowedIntensity is the product over the shadow list of that single
light of 1 - discCovered of the normalised quantities; an empty shadow list
(in particular a light with no owning body, such as the synthetic fallback
light) gives exactly 1, and the result always lies in the closed interval
from 0 to 1. -/
theorem ShadowedIntensity_spec (bodies : List Body) (lights : List LightSource)
    (lightNum : ℕ) (b : Body) :
    ShadowedIntensity bodies lights lightNum b =
      ((CalcShadows bodies lights lightNum b).map
        (fun sh => 1 - discCovered (sh.centre.length / sh.lrad)
          (sh.srad / sh.lrad))).prod ∧
    (CalcShadows bodies lights lightNum b = [] →
      ShadowedIntensity bodies lights lightNum b = 1) ∧
    (∀ ls, lights[lightNum]? = some ls → ls.body = none →
      ShadowedIntensity bodies lights lightNum b = 1) ∧
    0 ≤ ShadowedIntensity bodies lights lightNum b ∧
    ShadowedIntensity bodies lights lightNum b ≤ 1 := by
  have hprod : ShadowedIntensity bodies lights lightNum b =
      ((CalcShadows bodies lights lightNum b).map
        (fun sh => 1 - discCovered (sh.centre.length / sh.lrad)
          (sh.srad / sh.lrad))).prod := by
    unfold ShadowedIntensity
    exact foldl_mul_eq_prod _ _
  have hbounds := list_prod_mem_unit
    ((CalcShadows bodies lights lightNum b).map
      (fun sh => 1 - discCovered (sh.centre.length / sh.lrad)
        (sh.srad / sh.lrad)))
    (by
      intro x hx
      obtain ⟨sh, _, rfl⟩ := List.mem_map.mp hx
      constructor
      · have := discCovered_le_one (sh.centre.length / sh.lrad) (sh.srad / sh.lrad)
        linarith
      · have := discCovered_nonneg (sh.centre.length / sh.lrad) (sh.srad / sh.lrad)
        linarith)
  refine ⟨hprod, ?_, ?_, ?_, ?_⟩
  · intro hempty
    unfold ShadowedIntensity
    rw [hempty]
    rfl
  · intro ls hget hbody
    unfold ShadowedIntensity
    rw [(CalcShadows_spec bodies lights lightNum b).1 ls hget hbody]
    rfl
  · rw [hprod]; exact hbounds.1
  · rw [hprod]; exact hbounds.2

/-- Witness for ShadowedIntensity_spec: the synthetic fallback light (no
owning body) yields intensity exactly 1. -/
theorem ShadowedIntensity_spec_witness :
    (([⟨none, ⟨⟨0, 0, 0⟩, Color.white, Color.white⟩⟩] :
        List LightSource)[0]? = some ⟨none, ⟨⟨0, 0, 0⟩, Color.white, Color.white⟩⟩) ∧
    (LightSource.body ⟨none, ⟨⟨0, 0, 0⟩, Color.white, Color.white⟩⟩ = none) ∧
    ShadowedIntensity []
      [⟨none, ⟨⟨0, 0, 0⟩, Color.white, Color.white⟩⟩] 0
      ⟨0, ⟨false, false⟩, false, false, false, ⟨0, 0, 0⟩, ⟨0, 0, 0⟩, 1, 1,
        ⟨1, Color.white, Color.white, false⟩⟩ = 1 := by
  refine ⟨rfl, rfl, ?_⟩
  exact (ShadowedIntensity_spec [] [⟨none, ⟨⟨0, 0, 0⟩, Color.white, Color.white⟩⟩] 0
    ⟨0, ⟨false, false⟩, false, false, false, ⟨0, 0, 0⟩, ⟨0, 0, 0⟩, 1, 1,
      ⟨1, Color.white, Color.white, false⟩⟩).2.2.1 _ rfl rfl

/-- C5: the draw-list comparator orders exactly as claimed: among two entries
with equal draw-last flag the farther one sorts first, and a draw-last entry
sorts after any entry that is not draw-last, regardless of distance. -/
theorem sort_BodyAttrs_spec (a b : BodyAttrs) :
    sort_BodyAttrs a b ↔
      ((a.bodyFlags.drawLast = false ∧ b.bodyFlags.drawLast = true) ∨
       (a.bodyFlags.drawLast = b.bodyFlags.drawLast ∧ b.camDist < a.camDist)) := by
  unfold sort_BodyAttrs
  cases ha : a.bodyFlags.drawLast <;> cases hb : b.bodyFlags.drawLast <;>
    simp [ha, hb, gt_iff_lt]

theorem mem_foldl_append {α β : Type} (f : β → List α) (l : List β)
    (acc : List α) (x : α) :
    (x ∈ l.foldl (fun a i => a ++ f i) acc) ↔ x ∈ acc ∨ ∃ i ∈ l, x ∈ f i := by
  induction l generalizing acc with
  | nil => simp
  | cons j t ih =>
    rw [List.foldl_cons, ih]
    simp [List.mem_append, or_assoc]

theorem mem_gatherShadows (bodies : List Body) (lights : List LightSource)
    (b : Body) (sh : Shadow) :
    sh ∈ gatherShadows bodies lights b ↔
      ∃ i, i < 4 ∧ i < lights.length ∧ sh ∈ CalcShadows bodies lights i b := by
  unfold gatherShadows
  rw [mem_foldl_append]
  simp only [List.not_mem_nil, false_or, List.mem_range, lt_min_iff]
  constructor
  · rintro ⟨i, ⟨h4, hl⟩, hm⟩
    exact ⟨i, h4, hl, hm⟩
  · rintro ⟨i, h4, hl, hm⟩
    exact ⟨i, ⟨h4, hl⟩, hm⟩

/-- C6: PrincipalShadows returns at most n descriptors, sorted descending by
the severity order, and every returned descriptor comes from CalcShadows of
one of the active lights, of which at most 4 are consulted. -/
theorem PrincipalShadows_spec (le : Shadow → Shadow → Prop)
    (htot : ∀ s t, le s t ∨ le t s)
    (htrans : ∀ s t u, le s t → le t u → le s u)
    (bodies : List Body) (lights : List LightSource) (b : Body) (n : ℕ) :
    (PrincipalShadows le bodies lights b n).length ≤ n ∧
    List.Sorted (fun s t => le t s) (PrincipalShadows le bodies lights b n) ∧
    (∀ sh ∈ PrincipalShadows le bodies lights b n,
      ∃ i, i < 4 ∧ i < lights.length ∧ sh ∈ CalcShadows bodies lights i b) := by
  letI : IsTotal Shadow le := ⟨htot⟩
  letI : IsTrans Shadow le := ⟨fun s t u => htrans s t u⟩
  refine ⟨?_, ?_, ?_⟩
  · unfold PrincipalShadows
    rw [List.length_take]
    exact min_le_left _ _
  · have hs : List.Sorted le ((gatherShadows bodies lights b).insertionSort le) :=
      List.sorted_insertionSort le _
    have hrev : List.Sorted (fun s t => le t s)
        ((gatherShadows bodies lights b).insertionSort le).reverse := by
      unfold List.Sorted
      rw [List.pairwise_reverse]
      exact hs
    exact hrev.sublist (List.take_sublist _ _)
  · intro sh hmem
    have h1 : sh ∈ ((gatherShadows bodies lights b).insertionSort le).reverse :=
      List.mem_of_mem_take hmem
    have h2 : sh ∈ (gatherShadows bodies lights b).insertionSort le :=
      List.mem_reverse.mp h1
    have h3 : sh ∈ gatherShadows bodies lights b :=
      (List.mem_insertionSort le).mp h2
    exact (mem_gatherShadows bodies lights b sh).mp h3

/-- Witness for PrincipalShadows_spec with the trivially total and transitive
severity order on an empty scene. -/
theorem PrincipalShadows_spec_witness :
    (PrincipalShadows (fun _ _ => True) [] [] ⟨0, ⟨false, false⟩, false, false,
      false, ⟨0, 0, 0⟩, ⟨0, 0, 0⟩, 1, 1, ⟨1, Color.white, Color.white, false⟩⟩
      0).length ≤ 0 ∧
    List.Sorted (fun _ _ => True) (PrincipalShadows (fun _ _ => True) [] []
      ⟨0, ⟨false, false⟩, false, false, false, ⟨0, 0, 0⟩, ⟨0, 0, 0⟩, 1, 1,
        ⟨1, Color.white, Color.white, false⟩⟩ 0) ∧
    (∀ sh ∈ PrincipalShadows (fun _ _ => True) [] [] ⟨0, ⟨false, false⟩, false,
      false, false, ⟨0, 0, 0⟩, ⟨0, 0, 0⟩, 1, 1,
        ⟨1, Color.white, Color.white, false⟩⟩ 0,
      ∃ i, i < 4 ∧ i < ([] : List LightSource).length ∧
        sh ∈ CalcShadows [] [] i ⟨0, ⟨false, false⟩, false, false, false,
          ⟨0, 0, 0⟩, ⟨0, 0, 0⟩, 1, 1, ⟨1, Color.white, Color.white, false⟩⟩) :=
  PrincipalShadows_spec (fun _ _ => True) (fun _ _ => Or.inl trivial)
    (fun _ _ _ _ _ => trivial) [] []
    ⟨0, ⟨false, false⟩, false, false, false, ⟨0, 0, 0⟩, ⟨0, 0, 0⟩, 1, 1,
      ⟨1, Color.white, Color.white, false⟩⟩ 0

theorem frameLight_body (fbody : Option Body) (fpos : V3) (sb : SystemBody) :
    (frameLight fbody fpos sb).body = fbody := rfl

theorem lightsAtFrame_length (sb : Option SystemBody) (fbody : Option Body)
    (rot : Bool) (fpos : V3) (lights : List LightSource) :
    (lightsAtFrame sb fbody rot fpos lights).length ≤ lights.length + 1 := by
  cases sb with
  | none =>
    rw [lightsAtFrame]
    omega
  | some s =>
    rw [lightsAtFrame]
    split
    · rw [List.length_append]
      simp
    · omega


theorem ownerCount_le_length (beta : ℕ) (ls : List LightSource) :
    ownerCount beta ls ≤ ls.length :=
  List.countP_le_length _

theorem ownerCount_lightsAtFrame (beta : ℕ) (sb : Option SystemBody)
    (fbody : Option Body) (rot : Bool) (fpos : V3) (lights : List LightSource) :
    ownerCount beta (lightsAtFrame sb fbody rot fpos lights) ≤
      ownerCount beta lights + starFrameHit beta sb fbody rot := by
  cases sb with
  | none => simp [lightsAtFrame, starFrameHit]
  | some s =>
    rw [lightsAtFrame]
    cases hcond : (s.superTypeStar && !rot) with
    | false =>
      rw [if_neg (by simp [hcond])]
      cases fbody with
      | none => simp [starFrameHit]
      | some bb => simp [starFrameHit, hcond]
    | true =>
      rw [if_pos (by simp [hcond])]
      unfold ownerCount
      rw [List.countP_append]
      cases fbody with
      | none => simp [starFrameHit, frameLight, List.countP_cons]
      | some bb =>
        rw [starFrameHit]
        simp only [hcond, Bool.true_and]
        cases hid : (bb.id == beta) <;>
          simp [List.countP_cons, frameLight, hid]

theorem psl_length_aux (N : ℕ) :
    (∀ f : Frame, sizeOf f ≤ N → ∀ lights : List LightSource,
      lights.length ≤ 4 → (position_system_lights f lights).length ≤ 4) ∧
    (∀ ks : List Frame, sizeOf ks ≤ N → ∀ lights : List LightSource,
      lights.length ≤ 4 → (position_system_lights_list ks lights).length ≤ 4) := by
  induction N with
  | zero =>
    constructor
    · intro f hf
      cases f
      simp at hf
    · intro ks hks
      cases ks <;> simp at hks
  | succ N ih =>
    constructor
    · intro f hf lights hl
      cases f with
      | mk sb fbody rot fpos kids =>
        rw [position_system_lights]
        split
        · exact hl
        · next hle =>
          have hkids : sizeOf kids ≤ N := by
            simp at hf
            omega
          refine ih.2 kids hkids _ ?_
          have := lightsAtFrame_length sb fbody rot fpos lights
          omega
    · intro ks hks lights hl
      cases ks with
      | nil => rw [position_system_lights_list]; exact hl
      | cons k t =>
        rw [position_system_lights_list]
        have hk : sizeOf k ≤ N := by simp at hks; omega
        have ht : sizeOf t ≤ N := by simp at hks; omega
        exact ih.2 t ht _ (ih.1 k hk lights hl)

theorem psl_ownerCount_aux (beta : ℕ) (N : ℕ) :
    (∀ f : Frame, sizeOf f ≤ N → ∀ lights : List LightSource,
      ownerCount beta (position_system_lights f lights) ≤
        ownerCount beta lights + starFramesFor beta f) ∧
    (∀ ks : List Frame, sizeOf ks ≤ N → ∀ lights : List LightSource,
      ownerCount beta (position_system_lights_list ks lights) ≤
        ownerCount beta lights + starFramesForList beta ks) := by
  induction N with
  | zero =>
    constructor
    · intro f hf
      cases f
      simp at hf
    · intro ks hks
      cases ks <;> simp at hks
  | succ N ih =>
    constructor
    · intro f hf lights
      cases f with
      | mk sb fbody rot fpos kids =>
        rw [position_system_lights, starFramesFor]
        split
        · omega
        · have hkids : sizeOf kids ≤ N := by
            simp at hf
            omega
          have h1 := ih.2 kids hkids (lightsAtFrame sb fbody rot fpos lights)
          have h2 := ownerCount_lightsAtFrame beta sb fbody rot fpos lights
          omega
    · intro ks hks lights
      cases ks with
      | nil =>
        rw [position_system_lights_list, starFramesForList]
        omega
      | cons k t =>
        rw [position_system_lights_list, starFramesForList]
        have hk : sizeOf k ≤ N := by simp at hks; omega
        have ht : sizeOf t ≤ N := by simp at hks; omega
        have h1 := ih.2 t ht (position_system_lights k lights)
        have h2 := ih.1 k hk lights
        omega

/-- C7: the light walk checks the cap at entry and otherwise recurses into
every child frame; starting from at most 4 lights it never accumulates more
than 4; it emits at most one light per star body when the frame tree holds at
most one non-rotating star frame for that body; and when the walk from the
root yields nothing, exactly one synthetic white light with no owning body is
substituted, so the active light list is never empty. -/
theorem position_system_lights_spec (root : Frame) (beta : ℕ)
    (sb : Option SystemBody) (fbody : Option Body) (rot : Bool) (fpos : V3)
    (kids : List Frame) (lights : List LightSource) :
    (lights.length > 3 →
      position_system_lights (Frame.mk sb fbody rot fpos kids) lights = lights) ∧
    (lights.length ≤ 3 →
      position_system_lights (Frame.mk sb fbody rot fpos kids) lights =
        position_system_lights_list kids (lightsAtFrame sb fbody rot fpos lights)) ∧
    (lights.length ≤ 4 → (position_system_lights root lights).length ≤ 4) ∧
    (starFramesFor beta root ≤ 1 →
      ownerCount beta (position_system_lights root []) ≤ 1) ∧
    drawLights root ≠ [] ∧
    (position_system_lights root [] = [] →
      drawLights root = [⟨none, whiteLight⟩]) := by
  refine ⟨?_, ?_, ?_, ?_, ?_, ?_⟩
  · intro h
    rw [position_system_lights, if_pos h]
  · intro h
    rw [position_system_lights, if_neg (by omega)]
  · intro h
    exact (psl_length_aux (sizeOf root)).1 root le_rfl lights h
  · intro h
    have := (psl_ownerCount_aux beta (sizeOf root)).1 root le_rfl []
    have h0 : ownerCount beta ([] : List LightSource) = 0 := rfl
    omega
  · have hdef : drawLights root =
        if (position_system_lights root []).isEmpty then [⟨none, whiteLight⟩]
        else position_system_lights root [] := rfl
    rw [hdef]
    split
    · simp
    · next hne =>
      intro hc
      exact hne (by rw [hc]; rfl)
  · intro h
    have hdef : drawLights root =
        if (position_system_lights root []).isEmpty then [⟨none, whiteLight⟩]
        else position_system_lights root [] := rfl
    rw [hdef, h]
    rfl

/-- Witness for position_system_lights_spec on a one-frame tree holding a
single non-rotating star frame. -/
theorem position_system_lights_spec_witness :
    (([⟨none, whiteLight⟩, ⟨none, whiteLight⟩, ⟨none, whiteLight⟩,
        ⟨none, whiteLight⟩] : List LightSource).length > 3 ∧
      position_system_lights
        (Frame.mk (some ⟨1, Color.white, ⟨255, 200, 100, 255⟩, true⟩)
          (some ⟨0, ⟨false, false⟩, true, true, false, ⟨1, 0, 0⟩, ⟨1, 0, 0⟩, 1, 1,
            ⟨1, Color.white, ⟨255, 200, 100, 255⟩, true⟩⟩) false ⟨1, 0, 0⟩ [])
        [⟨none, whiteLight⟩, ⟨none, whiteLight⟩, ⟨none, whiteLight⟩,
          ⟨none, whiteLight⟩] =
        [⟨none, whiteLight⟩, ⟨none, whiteLight⟩, ⟨none, whiteLight⟩,
          ⟨none, whiteLight⟩]) ∧
    (starFramesFor 0
        (Frame.mk (some ⟨1, Color.white, ⟨255, 200, 100, 255⟩, true⟩)
          (some ⟨0, ⟨false, false⟩, true, true, false, ⟨1, 0, 0⟩, ⟨1, 0, 0⟩, 1, 1,
            ⟨1, Color.white, ⟨255, 200, 100, 255⟩, true⟩⟩) false ⟨1, 0, 0⟩ []) ≤ 1 ∧
      ownerCount 0
        (position_system_lights
          (Frame.mk (some ⟨1, Color.white, ⟨255, 200, 100, 255⟩, true⟩)
            (some ⟨0, ⟨false, false⟩, true, true, false, ⟨1, 0, 0⟩, ⟨1, 0, 0⟩, 1, 1,
              ⟨1, Color.white, ⟨255, 200, 100, 255⟩, true⟩⟩) false ⟨1, 0, 0⟩ [])
          []) ≤ 1) ∧
    drawLights
      (Frame.mk (some ⟨1, Color.white, ⟨255, 200, 100, 255⟩, true⟩)
        (some ⟨0, ⟨false, false⟩, true, true, false, ⟨1, 0, 0⟩, ⟨1, 0, 0⟩, 1, 1,
          ⟨1, Color.white, ⟨255, 200, 100, 255⟩, true⟩⟩) false ⟨1, 0, 0⟩ []) ≠ [] := by
  have hstar : starFramesFor 0
      (Frame.mk (some ⟨1, Color.white, ⟨255, 200, 100, 255⟩, true⟩)
        (some ⟨0, ⟨false, false⟩, true, true, false, ⟨1, 0, 0⟩, ⟨1, 0, 0⟩, 1, 1,
          ⟨1, Color.white, ⟨255, 200, 100, 255⟩, true⟩⟩) false ⟨1, 0, 0⟩ []) ≤ 1 := by
    rw [starFramesFor, starFramesForList, starFrameHit]
    split <;> omega
  refine ⟨⟨by norm_num, ?_⟩, ⟨hstar, ?_⟩, ?_⟩
  · exact (position_system_lights_spec
      (Frame.mk (some ⟨1, Color.white, ⟨255, 200, 100, 255⟩, true⟩)
        (some ⟨0, ⟨false, false⟩, true, true, false, ⟨1, 0, 0⟩, ⟨1, 0, 0⟩, 1, 1,
          ⟨1, Color.white, ⟨255, 200, 100, 255⟩, true⟩⟩) false ⟨1, 0, 0⟩ []) 0
      (some ⟨1, Color.white, ⟨255, 200, 100, 255⟩, true⟩)
      (some ⟨0, ⟨false, false⟩, true, true, false, ⟨1, 0, 0⟩, ⟨1, 0, 0⟩, 1, 1,
        ⟨1, Color.white, ⟨255, 200, 100, 255⟩, true⟩⟩) false ⟨1, 0, 0⟩ []
      [⟨none, whiteLight⟩, ⟨none, whiteLight⟩, ⟨none, whiteLight⟩,
        ⟨none, whiteLight⟩]).1 (by norm_num)
  · exact (position_system_lights_spec
      (Frame.mk (some ⟨1, Color.white, ⟨255, 200, 100, 255⟩, true⟩)
        (some ⟨0, ⟨false, false⟩, true, true, false, ⟨1, 0, 0⟩, ⟨1, 0, 0⟩, 1, 1,
          ⟨1, Color.white, ⟨255, 200, 100, 255⟩, true⟩⟩) false ⟨1, 0, 0⟩ []) 0
      none none false ⟨0, 0, 0⟩ [] []).2.2.2.1 hstar
  · exact (position_system_lights_spec
      (Frame.mk (some ⟨1, Color.white, ⟨255, 200, 100, 255⟩, true⟩)
        (some ⟨0, ⟨false, false⟩, true, true, false, ⟨1, 0, 0⟩, ⟨1, 0, 0⟩, 1, 1,
          ⟨1, Color.white, ⟨255, 200, 100, 255⟩, true⟩⟩) false ⟨1, 0, 0⟩ []) 0
      none none false ⟨0, 0, 0⟩ [] []).2.2.2.2.1

theorem length_z4 : V3.length ⟨0, 0, 4⟩ = 4 := by
  unfold V3.length
  norm_num
  rw [show (16 : ℝ) = 4 ^ 2 by norm_num]
  exact Real.sqrt_sq (by norm_num)

theorem evalBody_eq_billboard (space : Space) (lights : List LightSource)
    (b : Body) (hexcl : b.flags.drawExclude = false)
    (hfr : space.frustumTest b.viewCoords b.clipRadius = true)
    (hterr : b.isTerrain = true)
    (hsize : space.screenHeight * 2 * b.clipRadius /
      (b.viewCoords.length * space.fovFactor) < 8) :
    evalBody space lights b =
      some ⟨b, b.viewCoords, b.viewCoords.length, b.flags, true,
        space.translatePoint b.viewCoords,
        max 1 (space.screenHeight * 2 * b.clipRadius /
          (b.viewCoords.length * space.fovFactor)),
        billboardColorOf lights b⟩ := by
  unfold evalBody
  simp only [hexcl, hfr, hterr, Bool.not_true, Bool.false_eq_true,
    eq_self_iff_true, if_false, if_true]
  rw [if_pos hsize]

theorem evalBody_eq_fullTerrain (space : Space) (lights : List LightSource)
    (b : Body) (hexcl : b.flags.drawExclude = false)
    (hfr : space.frustumTest b.viewCoords b.clipRadius = true)
    (hterr : b.isTerrain = true)
    (hsize : ¬ space.screenHeight * 2 * b.clipRadius /
      (b.viewCoords.length * space.fovFactor) < 8) :
    evalBody space lights b =
      some ⟨b, b.viewCoords, b.viewCoords.length, b.flags, false, ⟨0, 0, 0⟩, 0,
        Color.white⟩ := by
  unfold evalBody
  simp only [hexcl, hfr, hterr, Bool.not_true, Bool.false_eq_true,
    eq_self_iff_true, if_false, if_true]
  rw [if_neg hsize]

theorem evalBody_eq_reject (space : Space) (lights : List LightSource)
    (b : Body) (hexcl : b.flags.drawExclude = false)
    (hfr : space.frustumTest b.viewCoords b.clipRadius = true)
    (hterr : b.isTerrain = false)
    (hsize : space.screenHeight * 2 * b.clipRadius /
      (b.viewCoords.length * space.fovFactor) < 2) :
    evalBody space lights b = none := by
  unfold evalBody
  simp only [hexcl, hfr, hterr, Bool.not_true, Bool.false_eq_true,
    eq_self_iff_true, if_false, if_true]
  rw [if_pos hsize]

theorem evalBody_eq_fullSmall (space : Space) (lights : List LightSource)
    (b : Body) (hexcl : b.flags.drawExclude = false)
    (hfr : space.frustumTest b.viewCoords b.clipRadius = true)
    (hterr : b.isTerrain = false)
    (hsize : ¬ space.screenHeight * 2 * b.clipRadius /
      (b.viewCoords.length * space.fovFactor) < 2) :
    evalBody space lights b =
      some ⟨b, b.viewCoords, b.viewCoords.length, b.flags, false, ⟨0, 0, 0⟩, 0,
        Color.white⟩ := by
  unfold evalBody
  simp only [hexcl, hfr, hterr, Bool.not_true, Bool.false_eq_true,
    eq_self_iff_true, if_false, if_true]
  rw [if_neg hsize]

/-- C9 counterexample: the claim computes the apparent size from the physical
radius, but the source uses the clip radius (the variable rad of line 165 is
GetClipRadius, reused at line 173). A non-terrain body with clip radius 0.1
and physical radius 1000 at distance 4 is rejected by the code although the
claimed physical-radius size is 500 pixels. -/
theorem pixel_size_cex :
    ¬ (∀ (space : Space) (lights : List LightSource) (b : Body),
        b.flags.drawExclude = false →
        space.frustumTest b.viewCoords b.clipRadius = true →
        b.isTerrain = false →
        (evalBody space lights b = none ↔
          space.screenHeight * 2 * b.physRadius /
            (b.viewCoords.length * space.fovFactor) < 2)) := by
  intro h
  have hnone : evalBody space9 [] b9 = none := by
    refine evalBody_eq_reject space9 [] b9 rfl rfl rfl ?_
    show (1 : ℝ) * 2 * 0.1 / (V3.length ⟨0, 0, 4⟩ * 1) < 2
    rw [length_z4]
    norm_num
  have hiff := h space9 [] b9 rfl rfl rfl
  have hlt := hiff.mp hnone
  have : (1 : ℝ) * 2 * 1000 / (V3.length ⟨0, 0, 4⟩ * 1) < 2 := hlt
  rw [length_z4] at this
  norm_num at this

/-- C9 amended: the apparent size is screenHeight * 2 * clipRadius divided by
(cameraDistance * fovFactor); for a body passing the exclude and frustum
tests, a terrain body is billboard-classified exactly when that size is
strictly under 8 pixels (and is never rejected), while a non-terrain body is
rejected exactly when that size is strictly under 2 pixels; both comparisons
are strict, so a size exactly at a boundary resolves to the not-below side. -/
theorem evalBody_classify (space : Space) (lights : List LightSource)
    (b : Body) (hexcl : b.flags.drawExclude = false)
    (hfr : space.frustumTest b.viewCoords b.clipRadius = true) :
    (b.isTerrain = true →
      ∃ a, evalBody space lights b = some a ∧
        (a.billboard = true ↔
          space.screenHeight * 2 * b.clipRadius /
            (b.viewCoords.length * space.fovFactor) < 8)) ∧
    (b.isTerrain = false →
      (evalBody space lights b = none ↔
        space.screenHeight * 2 * b.clipRadius /
          (b.viewCoords.length * space.fovFactor) < 2)) := by
  constructor
  · intro hterr
    by_cases hsize : space.screenHeight * 2 * b.clipRadius /
        (b.viewCoords.length * space.fovFactor) < 8
    · exact ⟨_, evalBody_eq_billboard space lights b hexcl hfr hterr hsize,
        by simp [hsize]⟩
    · exact ⟨_, evalBody_eq_fullTerrain space lights b hexcl hfr hterr hsize,
        by simp [hsize]⟩
  · intro hterr
    by_cases hsize : space.screenHeight * 2 * b.clipRadius /
        (b.viewCoords.length * space.fovFactor) < 2
    · simp [evalBody_eq_reject space lights b hexcl hfr hterr hsize, hsize]
    · simp [evalBody_eq_fullSmall space lights b hexcl hfr hterr hsize, hsize]

/-- Witness for evalBody_classify: the hidden-threshold direction at the
concrete rejected body. -/
theorem evalBody_classify_witness :
    b9.flags.drawExclude = false ∧
    space9.frustumTest b9.viewCoords b9.clipRadius = true ∧
    b9.isTerrain = false ∧
    (evalBody space9 [] b9 = none ↔
      space9.screenHeight * 2 * b9.clipRadius /
        (b9.viewCoords.length * space9.fovFactor) < 2) :=
  ⟨rfl, rfl, rfl, (evalBody_classify space9 [] b9 rfl rfl).2 rfl⟩

/-- C10: a billboard-classified body gets size max 1 pixSize (so at least one
pixel), full alpha, and the tint of the claim: star colour for stars (with no
light multiply), albedo for planets and white otherwise, multiplied by the
diffuse colour of the first light exactly when the light list is non-empty
and the body is not a star. -/
theorem evalBody_billboard_attrs (space : Space) (lights : List LightSource)
    (b : Body) (hexcl : b.flags.drawExclude = false)
    (hfr : space.frustumTest b.viewCoords b.clipRadius = true)
    (hterr : b.isTerrain = true)
    (hsize : space.screenHeight * 2 * b.clipRadius /
      (b.viewCoords.length * space.fovFactor) < 8) :
    ∃ a, evalBody space lights b = some a ∧ a.billboard = true ∧
      a.billboardSize = max 1 (space.screenHeight * 2 * b.clipRadius /
        (b.viewCoords.length * space.fovFactor)) ∧
      1 ≤ a.billboardSize ∧
      a.billboardColor.a = 255 ∧
      (b.isStar = true → a.billboardColor = { b.sysBody.starColor with a := 255 }) ∧
      (b.isStar = false → b.isPlanet = true →
        (lights = [] → a.billboardColor = { b.sysBody.albedo with a := 255 }) ∧
        (∀ l0 rest, lights = l0 :: rest →
          a.billboardColor =
            { colorMul b.sysBody.albedo l0.light.diffuse with a := 255 })) ∧
      (b.isStar = false → b.isPlanet = false →
        (lights = [] → a.billboardColor = { Color.white with a := 255 }) ∧
        (∀ l0 rest, lights = l0 :: rest →
          a.billboardColor =
            { colorMul Color.white l0.light.diffuse with a := 255 })) := by
  refine ⟨_, evalBody_eq_billboard space lights b hexcl hfr hterr hsize,
    rfl, rfl, le_max_left _ _, rfl, ?_, ?_, ?_⟩
  · intro hstar
    simp [billboardColorOf, litBillboardColor, baseBillboardColor, hstar]
    cases lights <;> simp [litBillboardColor, baseBillboardColor, hstar]
  · intro hstar hplanet
    constructor
    · intro hl
      simp [billboardColorOf, hl, litBillboardColor, baseBillboardColor,
        hstar, hplanet]
    · intro l0 rest hl
      simp [billboardColorOf, hl, litBillboardColor, baseBillboardColor,
        hstar, hplanet]
  · intro hstar hplanet
    constructor
    · intro hl
      simp [billboardColorOf, hl, litBillboardColor, baseBillboardColor,
        hstar, hplanet]
    · intro l0 rest hl
      simp [billboardColorOf, hl, litBillboardColor, baseBillboardColor,
        hstar, hplanet]

/-- Witness for evalBody_billboard_attrs at the concrete billboard planet. -/
theorem evalBody_billboard_attrs_witness :
    planet8.flags.drawExclude = false ∧
    space8.frustumTest planet8.viewCoords planet8.clipRadius = true ∧
    planet8.isTerrain = true ∧
    space8.screenHeight * 2 * planet8.clipRadius /
      (planet8.viewCoords.length * space8.fovFactor) < 8 ∧
    (∃ a, evalBody space8 [] planet8 = some a ∧ a.billboard = true ∧
      a.billboardSize = max 1 (space8.screenHeight * 2 * planet8.clipRadius /
        (planet8.viewCoords.length * space8.fovFactor)) ∧
      1 ≤ a.billboardSize ∧
      a.billboardColor.a = 255 ∧
      (planet8.isStar = true →
        a.billboardColor = { planet8.sysBody.starColor with a := 255 }) ∧
      (planet8.isStar = false → planet8.isPlanet = true →
        (([] : List LightSource) = [] →
          a.billboardColor = { planet8.sysBody.albedo with a := 255 }) ∧
        (∀ l0 rest, ([] : List LightSource) = l0 :: rest →
          a.billboardColor =
            { colorMul planet8.sysBody.albedo l0.light.diffuse with a := 255 })) ∧
      (planet8.isStar = false → planet8.isPlanet = false →
        (([] : List LightSource) = [] →
          a.billboardColor = { Color.white with a := 255 }) ∧
        (∀ l0 rest, ([] : List LightSource) = l0 :: rest →
          a.billboardColor =
            { colorMul Color.white l0.light.diffuse with a := 255 }))) := by
  have hsize : space8.screenHeight * 2 * planet8.clipRadius /
      (planet8.viewCoords.length * space8.fovFactor) < 8 := by
    show (1 : ℝ) * 2 * 1 / (V3.length ⟨0, 0, 4⟩ * 1) < 8
    rw [length_z4]
    norm_num
  exact ⟨rfl, rfl, rfl, hsize,
    evalBody_billboard_attrs space8 [] planet8 rfl rfl rfl hsize⟩

theorem drawLights_starFrame8 :
    drawLights starFrame8 = [frameLight none ⟨1, 0, 0⟩ starSys8] := by
  have hpsl : position_system_lights starFrame8 [] =
      [frameLight none ⟨1, 0, 0⟩ starSys8] := by
    show position_system_lights
      (Frame.mk (some starSys8) none false ⟨1, 0, 0⟩ []) [] = _
    rw [position_system_lights, if_neg (by simp), position_system_lights_list,
      lightsAtFrame, if_pos (by simp [starSys8])]
    simp
  have hdef : drawLights starFrame8 =
      if (position_system_lights starFrame8 []).isEmpty then [⟨none, whiteLight⟩]
      else position_system_lights starFrame8 [] := rfl
  rw [hdef, hpsl]
  simp

/-- C8 counterexample: the claim says the billboard tint computed during
classification uses the light data of the current frame. In the source the
light list is populated inside Draw (lines 232-241) while classification and
tinting happen inside Update (lines 142-214), and per spec section 4.4 Update
runs first; so on a fresh camera in a scene with one star and one billboard
planet, the tint of the frame is white (computed from the empty prior light
list) while the light list of the current frame holds a black-diffuse star
light that the claim would have multiplied in. -/
theorem update_tint_cex :
    ¬ (∀ (space : Space) (cam : Camera),
        (frameStep space cam).sortedBodies =
          (update space ⟨(frameStep space cam).lightSources,
            cam.sortedBodies⟩).sortedBodies) := by
  intro h
  have hsize : space8.screenHeight * 2 * planet8.clipRadius /
      (planet8.viewCoords.length * space8.fovFactor) < 8 := by
    show (1 : ℝ) * 2 * 1 / (V3.length ⟨0, 0, 4⟩ * 1) < 8
    rw [length_z4]
    norm_num
  have e1 := evalBody_eq_billboard space8 [] planet8 rfl rfl rfl hsize
  have e2 := evalBody_eq_billboard space8 [frameLight none ⟨1, 0, 0⟩ starSys8]
    planet8 rfl rfl rfl hsize
  have hlights : (frameStep space8 ⟨[], []⟩).lightSources =
      [frameLight none ⟨1, 0, 0⟩ starSys8] := by
    show drawLights starFrame8 = _
    exact drawLights_starFrame8
  have h8 := h space8 ⟨[], []⟩
  rw [hlights] at h8
  have hLc : (frameStep space8 ⟨[], []⟩).sortedBodies =
      [⟨planet8, planet8.viewCoords, planet8.viewCoords.length, planet8.flags,
        true, space8.translatePoint planet8.viewCoords,
        max 1 (space8.screenHeight * 2 * planet8.clipRadius /
          (planet8.viewCoords.length * space8.fovFactor)),
        billboardColorOf [] planet8⟩] := by
    show (List.filterMap (evalBody space8 []) [planet8]).insertionSort
      sort_BodyAttrs = _
    rw [List.filterMap_cons, e1]
    simp [List.insertionSort]
  have hRc : (update space8 ⟨[frameLight none ⟨1, 0, 0⟩ starSys8], []⟩).sortedBodies =
      [⟨planet8, planet8.viewCoords, planet8.viewCoords.length, planet8.flags,
        true, space8.translatePoint planet8.viewCoords,
        max 1 (space8.screenHeight * 2 * planet8.clipRadius /
          (planet8.viewCoords.length * space8.fovFactor)),
        billboardColorOf [frameLight none ⟨1, 0, 0⟩ starSys8] planet8⟩] := by
    show (List.filterMap (evalBody space8
      [frameLight none ⟨1, 0, 0⟩ starSys8]) [planet8]).insertionSort
      sort_BodyAttrs = _
    rw [List.filterMap_cons, e2]
    simp [List.insertionSort]
  rw [hLc, hRc] at h8
  have hcolor : billboardColorOf [] planet8 =
      billboardColorOf [frameLight none ⟨1, 0, 0⟩ starSys8] planet8 := by
    have := List.head_eq_of_cons_eq h8
    exact congrArg BodyAttrs.billboardColor this
  have hwhite : billboardColorOf [] planet8 = ⟨255, 255, 255, 255⟩ := by
    simp [billboardColorOf, litBillboardColor, baseBillboardColor, planet8,
      sys0, Color.white]
  have hblack : billboardColorOf [frameLight none ⟨1, 0, 0⟩ starSys8] planet8 =
      ⟨0, 0, 0, 255⟩ := by
    simp [billboardColorOf, litBillboardColor, baseBillboardColor, planet8,
      sys0, Color.white, frameLight, starSys8, colorMul]
  rw [hwhite, hblack] at hcolor
  simp at hcolor

/-- C8 amended: with the per-frame sequence of spec section 4.4 (Update then
Draw), the billboard tints of the draw list produced in a frame are computed
from the light list the camera held before the frame began (the one populated
by Draw of the previous frame), and the light list of the current frame is
populated by Draw only after classification. -/
theorem update_uses_prior_lights (space : Space) (cam : Camera) :
    (frameStep space cam).sortedBodies =
      (space.bodies.filterMap (evalBody space cam.lightSources)).insertionSort
        sort_BodyAttrs ∧
    (frameStep space cam).lightSources = drawLights space.rootFrame :=
  ⟨rfl, rfl⟩

end Pioneer
